import Mathlib

/-!
Shallow embedding of the request execution and pagination engine of the
`igem_registry_api` client library, covering:

* `src/igem_registry_api/rates.py` — the rate-limit tracker
  (`ratelimit` header extraction and `cooldown` computation);
* `src/igem_registry_api/calls.py` — the single-call executor `_call`
  (attempt loop, 5xx backoff, 429 retry-after handling, rate-limit state
  update, error dispatch) and the pagination driver `_call_paginated`.

Machine-level conventions of the embedding:

* header values are modelled as already-parsed integers (`Option Int`:
  `none` means the header is absent);
* the Python `match` statement in `_call` uses value patterns
  (`case status.is_client_error:`), which compare the subject with `==`;
  since `HTTPStatus` is an `IntEnum`, comparing it against the boolean
  `status.is_client_error` compares the status code with `0`/`1`.  The
  embedding (`dispatch`) reproduces this literally via `Bool.toNat`;
* `time.sleep` is modelled by recording the slept duration in a trace;
* pydantic validation of `NonNegativeInt` fields is modelled by `Except`;
* the unbounded `while True` pagination loop is modelled with fuel:
  a `none` result stands for running out of fuel (non-termination).
-/

namespace IgemRegistry

/-! ## rates.py -/

/-- The three metrics read from `x-ratelimit-{metric}-{window}` headers
(`METRICS` in `rates.py`). -/
inductive Metric where
  | remaining
  | reset
  | limit
deriving DecidableEq, Repr

/-- The three rate-limit windows (`WINDOWS` in `rates.py`). -/
inductive Window where
  | short
  | medium
  | large
deriving DecidableEq, Repr

def Metric.all : List Metric := [.remaining, .reset, .limit]

def Window.all : List Window := [.short, .medium, .large]

/-- The response headers relevant to rate limiting: the nine
`x-ratelimit-{metric}-{window}` headers and the three
`retry-after-{window}` headers, with values parsed to integers.
`none` means the header is absent. -/
structure HeaderMap where
  rl : Metric → Window → Option Int
  retryAfter : Window → Option Int

/-- A header map with every relevant header absent. -/
def HeaderMap.empty : HeaderMap := ⟨fun _ _ => none, fun _ => none⟩

/-- Model `RateLimit` of `rates.py`: three triples of `NonNegativeInt`
for the short, medium and large windows.  Values are embedded as `Int`;
the non-negativity validation of pydantic is performed by `ratelimit`. -/
structure RateLimit where
  balance : Int × Int × Int
  reset : Int × Int × Int
  quota : Int × Int × Int
deriving DecidableEq, Repr

/-- The pydantic field defaults of `RateLimit`:
`balance = (0, 0, 0)`, `reset = (5, 60, 600)`, `quota = (5, 60, 200)`. -/
def metricDefault : Metric → Int × Int × Int
  | .remaining => (0, 0, 0)
  | .reset => (5, 60, 600)
  | .limit => (5, 60, 200)

/-- The triple of window header values of one metric, each read with the
default -1 for an absent header, as built by `ratelimit` in `rates.py`
from the x-ratelimit headers of the short, medium and large windows. -/
def metricValues (h : HeaderMap) (m : Metric) : Int × Int × Int :=
  ((h.rl m .short).getD (-1), (h.rl m .medium).getD (-1), (h.rl m .large).getD (-1))

/-- Test `-1 in values` from `ratelimit` in `rates.py`. -/
def hasSentinel (v : Int × Int × Int) : Bool :=
  v.1 == -1 || v.2.1 == -1 || v.2.2 == -1

/-- The triple the `RateLimit` constructor receives for one metric:
the header-derived values when the metric was kept in `data`, the
pydantic field default when it was skipped over a `-1` sentinel. -/
def metricResult (h : HeaderMap) (m : Metric) : Int × Int × Int :=
  let v := metricValues h m
  if hasSentinel v then metricDefault m else v

/-- pydantic `NonNegativeInt` validation of one triple. -/
def validTriple (v : Int × Int × Int) : Bool :=
  0 ≤ v.1 && 0 ≤ v.2.1 && 0 ≤ v.2.2

/-- Function `ratelimit` from `rates.py`: per metric, read the three window headers
with default `-1`; skip the metric when a `-1` appears; build the
`RateLimit` model from the kept metrics, with pydantic defaults for the
skipped ones.  `RateLimit(**data)` raises `ValidationError` when a kept
value is negative, modelled by `Except.error`. -/
def ratelimit (h : HeaderMap) : Except Unit RateLimit :=
  let b := metricResult h .remaining
  let r := metricResult h .reset
  let q := metricResult h .limit
  if validTriple b && validTriple r && validTriple q then
    .ok ⟨b, r, q⟩
  else
    .error ()

/-- Python `max(xs, default = d)`: the maximum of a nonempty list,
the default for the empty one. -/
def maxD : List Int → Int → Int
  | [], d => d
  | x :: xs, _ => xs.foldl max x

/-- The `waits` comprehension from `cooldown` in `rates.py`:
`[time for calls, time in zip(balance, reset) if calls == 0]`. -/
def waits (rl : RateLimit) : List Int :=
  (List.zip [rl.balance.1, rl.balance.2.1, rl.balance.2.2]
      [rl.reset.1, rl.reset.2.1, rl.reset.2.2]).filterMap
    (fun p => if p.1 = 0 then some p.2 else none)

/-- Function `cooldown` from `rates.py`: `max(waits, default=0)`. -/
def cooldown (rl : RateLimit) : Int :=
  maxD (waits rl) 0

/-- Check `all(header in response.headers for header in RATE_LIMIT_HEADERS)`
from `_call` in `calls.py`. -/
def allRateLimitHeaders (h : HeaderMap) : Bool :=
  Metric.all.all fun m => Window.all.all fun w => (h.rl m w).isSome

/-! ## calls.py: the single-call executor `_call` -/

/-- The method and URL of a `requests.Request`. -/
structure Request where
  method : String
  url : String
deriving DecidableEq, Repr

/-- An HTTP response as seen by `_call`: status code, reason phrase
and the rate-limit relevant headers. -/
structure Response where
  status : Nat
  reason : String
  headers : HeaderMap

/-- Predicate `HTTPStatus.is_success`: `200 <= status <= 299`. -/
def isSuccessStatus (s : Nat) : Bool :=
  200 ≤ s && s ≤ 299

/-- Predicate `HTTPStatus.is_client_error`: `400 <= status <= 499`. -/
def isClientErrorStatus (s : Nat) : Bool :=
  400 ≤ s && s ≤ 499

/-- Predicate `HTTPStatus.is_server_error`: `500 <= status <= 599`. -/
def isServerErrorStatus (s : Nat) : Bool :=
  500 ≤ s && s ≤ 599

/-- The exception classes `_call` can raise on the status-dispatch path. -/
inductive ErrKind where
  | rateLimitError
  | clientError
  | serverError
  | httpError
deriving DecidableEq, Repr

/-- The outcome of `_call`, truncated after the HTTP-status check
(body decoding is orthogonal to the verified claims):

* `retryExhausted` — `RetryExhaustedError` from the `for`/`else` clause;
* `statusError` — one of `RateLimitError`/`ClientError`/`ServerError`/
  `HTTPError`, carrying status, reason, method and URL;
* `validationFailed` — pydantic `ValidationError` out of `_ratelimit`;
* `success` — a 2xx response survived the status check. -/
inductive CallResult where
  | retryExhausted
  | statusError (kind : ErrKind) (status : Nat) (reason : String)
      (method : String) (url : String)
  | validationFailed
  | success (status : Nat)
deriving DecidableEq, Repr

/-- The mutable connection state `_call` reads and writes:
`client.cooldown` (initially `0`) and `client.ratelimit`
(initially `None`). -/
structure ConnState where
  cooldown : Int
  ratelimit : Option RateLimit
deriving DecidableEq, Repr

/-- The `match status` dispatch of `_call` (lines 283–311 of `calls.py`).
Python value patterns compare with `==`; `HTTPStatus` is an `IntEnum`,
so `case status.is_client_error:` compares the status code with the
integer value of a boolean (`True == 1`, `False == 0`), and likewise for
`case status.is_server_error:`. -/
def dispatch (s : Nat) : ErrKind :=
  if s = 429 then .rateLimitError
  else if s = (isClientErrorStatus s).toNat then .clientError
  else if s = (isServerErrorStatus s).toNat then .serverError
  else .httpError

/-- The 5xx backoff of `_call`:
`client.cooldown = min((client.cooldown or 1) * 2, 60)`.
Python `or` replaces a falsy (zero) cooldown by `1`. -/
def backoff (c : Int) : Int :=
  min ((if c = 0 then 1 else c) * 2) 60

/-- The 429 cooldown of `_call`:
`max(int(response.headers.get(header, 1)) for header in RETRY_AFTER_HEADERS)`. -/
def retryAfterCooldown (h : HeaderMap) : Int :=
  max (max ((h.retryAfter .short).getD 1) ((h.retryAfter .medium).getD 1))
    ((h.retryAfter .large).getD 1)

/-- The post-loop tail of `_call` (lines 273–311): refresh
`client.ratelimit` and `client.cooldown` from a complete rate-limit
header set, then raise on a non-2xx status.  Returns the sleep trace,
the final connection state and the outcome. -/
def postLoop (req : Request) (resp : Response) (st : ConnState)
    (sleeps : List Int) : List Int × ConnState × CallResult :=
  let stepped : Except Unit ConnState :=
    if allRateLimitHeaders resp.headers then
      match ratelimit resp.headers with
      | .error _ => .error ()
      | .ok rl => .ok ⟨cooldown rl, some rl⟩
    else
      .ok st
  match stepped with
  | .error _ => (sleeps, st, .validationFailed)
  | .ok st2 =>
    if isSuccessStatus resp.status then
      (sleeps, st2, .success resp.status)
    else
      (sleeps, st2,
        .statusError (dispatch resp.status) resp.status resp.reason
          req.method req.url)

/-- The attempt loop of `_call` (`for attempt in range(client.retries)`):
`srv i` is the response the session returns on attempt `i`; `remaining`
counts the attempts left; `sleeps` records `sleep(client.cooldown or 0)`
before each send.  A 5xx doubles the cooldown and continues; a 429 sets
the cooldown from the retry-after headers and continues; any other
status breaks into `postLoop`; an exhausted range falls into the
`for`/`else` clause (`RetryExhaustedError`). -/
def callAux (req : Request) (srv : Nat → Response) (attempt : Nat)
    (st : ConnState) (sleeps : List Int) (remaining : Nat) :
    List Int × ConnState × CallResult :=
  match remaining with
  | 0 => (sleeps, st, .retryExhausted)
  | n + 1 =>
    let resp := srv attempt
    let sleeps2 := sleeps ++ [st.cooldown]
    if isServerErrorStatus resp.status then
      callAux req srv (attempt + 1) ⟨backoff st.cooldown, st.ratelimit⟩ sleeps2 n
    else if resp.status = 429 then
      callAux req srv (attempt + 1)
        ⟨retryAfterCooldown resp.headers, st.ratelimit⟩ sleeps2 n
    else
      postLoop req resp st sleeps2

/-- Function `_call` from `calls.py`, restricted to the attempt loop, the
rate-limit state update and the status dispatch: run the attempt loop
with the retry budget of the client from its current connection
state. -/
def call (req : Request) (srv : Nat → Response) (retries : Nat)
    (st : ConnState) : List Int × ConnState × CallResult :=
  callAux req srv 0 st [] retries

/-! ## calls.py: the pagination driver `_call_paginated` -/

/-- A decoded `PaginatedResponse[data, meta]` envelope: the `data` page,
the server-side `total` and the optional `metadata`. -/
structure Page (α : Type) (μ : Type) where
  data : List α
  total : Nat
  metadata : Option μ
deriving DecidableEq, Repr

/-- The Python exception a paginated run can raise beyond the
errors of the executor itself: ValueError from int of the string inf. -/
inductive PyErr where
  | valueError
deriving DecidableEq, Repr

/-- Expression `results[:limit] if limit is not None else results` from
`_call_paginated`. -/
def finalize (limit : Option Nat) (acc : List α) : List α :=
  match limit with
  | some l => acc.take l
  | none => acc

/-- Condition `limit is not None and len(results) >= limit` from `_call_paginated`. -/
def limitReached (limit : Option Nat) (n : Nat) : Bool :=
  match limit with
  | some l => decide (l ≤ n)
  | none => false

/-- The progress block of `_call_paginated`:
`progress(current=len(results), total=min(limit or int("inf"), response.total))`.
When `limit` is `None` (or `0`, both falsy), Python evaluates
`int("inf")`, which raises `ValueError` before the callback runs;
otherwise the callback receives `(current, min limit total)`.  Returns
the list of callback invocations this step produces (empty when no
callback was supplied). -/
def progressStep (progress : Bool) (limit : Option Nat) (total : Nat)
    (current : Nat) : Except PyErr (List (Nat × Nat)) :=
  if progress then
    match limit with
    | some l => if l = 0 then .error .valueError else .ok [(current, min l total)]
    | none => .error .valueError
  else
    .ok []

/-- The `while True` loop of `_call_paginated`, with fuel: `pages p` is
the decoded envelope the executor returns for page number `p`; `acc`
accumulates `results`; `evs` accumulates the progress-callback
invocations.  An empty page, or a reached limit, breaks the loop and
returns `finalize limit results` together with the metadata of the page
the loop last fetched. -/
def paginateAux (pages : Nat → Page α μ) (limit : Option Nat)
    (progress : Bool) (page : Nat) (acc : List α)
    (evs : List (Nat × Nat)) (fuel : Nat) :
    Option (Except PyErr ((List α × Option μ) × List (Nat × Nat))) :=
  match fuel with
  | 0 => none
  | f + 1 =>
    let r := pages page
    if r.data.isEmpty then
      some (.ok ((finalize limit acc, r.metadata), evs))
    else
      let acc2 := acc ++ r.data
      match progressStep progress limit r.total acc2.length with
      | .error e => some (.error e)
      | .ok newEvs =>
        let evs2 := evs ++ newEvs
        if limitReached limit acc2.length then
          some (.ok ((finalize limit acc2, r.metadata), evs2))
        else
          paginateAux pages limit progress (page + 1) acc2 evs2 f

/-- Function `_call_paginated` from `calls.py`: pagination starts at
`request.params["page"] = 1` with an empty accumulator. -/
def callPaginated (pages : Nat → Page α μ) (limit : Option Nat)
    (progress : Bool) (fuel : Nat) :
    Option (Except PyErr ((List α × Option μ) × List (Nat × Nat))) :=
  paginateAux pages limit progress 1 [] [] fuel

/-- The concatenation, in page order, of the `data` lists of `count`
consecutive envelopes starting at page number `page`. -/
def joinRange (pages : Nat → Page α μ) (page : Nat) : Nat → List α
  | 0 => []
  | k + 1 => (pages page).data ++ joinRange pages (page + 1) k

/-! ## Concrete fixtures -/

/-- A header map carrying only the three `x-ratelimit-remaining-*`
headers: the `reset` and `limit` metrics are each missing all three of
their window headers. -/
def remainingOnlyHeaders : HeaderMap :=
  ⟨fun m w =>
    match m, w with
    | .remaining, .short => some 3
    | .remaining, .medium => some 4
    | .remaining, .large => some 5
    | _, _ => none,
   fun _ => none⟩

/-- A header map in which every metric is missing at least one window
header, while some scattered headers are present. -/
def scatteredHeaders : HeaderMap :=
  ⟨fun m w =>
    match m, w with
    | .remaining, .short => some 7
    | .reset, .medium => some 8
    | .limit, .large => some 9
    | _, _ => none,
   fun _ => none⟩

/-- A snapshot with the short and large windows exhausted. -/
def rlW : RateLimit := ⟨(0, 3, 0), (7, 9, 11), (5, 60, 200)⟩

/-! ## Theorems -/

theorem metricResult_of_absent (h : HeaderMap) (m : Metric) (w : Window)
    (hw : h.rl m w = none) : metricResult h m = metricDefault m := by
  cases w <;> simp [metricResult, metricValues, hasSentinel, hw]

/-- C3, corrected (counterexample): a header map carrying a complete
`remaining` triplet but no `reset` or `limit` headers — so at least one
of the 9 required headers is absent — yields a snapshot whose `balance`
comes from the headers while `reset` and `quota` are defaults: a mixed
snapshot, not the no-headers default. -/
theorem ratelimit_mixed_snapshot_counterexample :
    ratelimit remainingOnlyHeaders = .ok ⟨(3, 4, 5), (5, 60, 600), (5, 60, 200)⟩
    ∧ ratelimit HeaderMap.empty = .ok ⟨(0, 0, 0), (5, 60, 600), (5, 60, 200)⟩
    ∧ remainingOnlyHeaders.rl .reset .short = none
    ∧ (⟨(3, 4, 5), (5, 60, 600), (5, 60, 200)⟩ : RateLimit) ≠
        ⟨(0, 0, 0), (5, 60, 600), (5, 60, 200)⟩ := by
  refine ⟨rfl, rfl, rfl, ?_⟩
  decide

/-- C3, amended: `ratelimit` falls back per metric, not per snapshot: a
metric triplet is header-derived only when all three of its window
headers are present.  Hence whenever each of the three metrics is
missing at least one of its window headers, the extraction returns the
no-headers default snapshot. -/
theorem ratelimit_per_metric_fallback (h : HeaderMap)
    (hm : ∀ m : Metric, ∃ w : Window, h.rl m w = none) :
    ratelimit h = .ok ⟨(0, 0, 0), (5, 60, 600), (5, 60, 200)⟩ := by
  obtain ⟨w1, h1⟩ := hm .remaining
  obtain ⟨w2, h2⟩ := hm .reset
  obtain ⟨w3, h3⟩ := hm .limit
  simp [ratelimit, metricResult_of_absent h .remaining w1 h1,
    metricResult_of_absent h .reset w2 h2,
    metricResult_of_absent h .limit w3 h3, metricDefault, validTriple]

/-- Witness for C3 (amended): on `scatteredHeaders`, where each metric
is missing at least one window header, extraction returns the default
snapshot. -/
theorem ratelimit_per_metric_fallback_witness :
    ratelimit scatteredHeaders = .ok ⟨(0, 0, 0), (5, 60, 600), (5, 60, 200)⟩ :=
  ratelimit_per_metric_fallback scatteredHeaders
    (fun m =>
      match m with
      | .remaining => ⟨.medium, rfl⟩
      | .reset => ⟨.short, rfl⟩
      | .limit => ⟨.short, rfl⟩)

/-- C4: `cooldown` returns 0 when every window has a positive remaining
balance, and otherwise the maximum reset time over the exhausted windows
(it is an upper bound of these reset times, and attained at one of
them). -/
theorem cooldown_max_over_exhausted (rl : RateLimit) :
    (0 < rl.balance.1 → 0 < rl.balance.2.1 → 0 < rl.balance.2.2 →
      cooldown rl = 0)
    ∧ (rl.balance.1 = 0 → rl.reset.1 ≤ cooldown rl)
    ∧ (rl.balance.2.1 = 0 → rl.reset.2.1 ≤ cooldown rl)
    ∧ (rl.balance.2.2 = 0 → rl.reset.2.2 ≤ cooldown rl)
    ∧ ((rl.balance.1 = 0 ∨ rl.balance.2.1 = 0 ∨ rl.balance.2.2 = 0) →
        (rl.balance.1 = 0 ∧ cooldown rl = rl.reset.1)
        ∨ (rl.balance.2.1 = 0 ∧ cooldown rl = rl.reset.2.1)
        ∨ (rl.balance.2.2 = 0 ∧ cooldown rl = rl.reset.2.2)) := by
  obtain ⟨⟨b1, b2, b3⟩, ⟨r1, r2, r3⟩, q⟩ := rl
  by_cases h1 : b1 = 0 <;> by_cases h2 : b2 = 0 <;> by_cases h3 : b3 = 0 <;>
    simp [cooldown, waits, maxD, h1, h2, h3] <;>
    omega

/-- Witness for C4: on `rlW`, whose short and large windows are
exhausted, `cooldown` is at least the reset time of each exhausted window and
equals one of them. -/
theorem cooldown_max_over_exhausted_witness :
    (7 : Int) ≤ cooldown rlW ∧ (11 : Int) ≤ cooldown rlW ∧
      ((rlW.balance.1 = 0 ∧ cooldown rlW = rlW.reset.1)
        ∨ (rlW.balance.2.1 = 0 ∧ cooldown rlW = rlW.reset.2.1)
        ∨ (rlW.balance.2.2 = 0 ∧ cooldown rlW = rlW.reset.2.2)) :=
  ⟨(cooldown_max_over_exhausted rlW).2.1 rfl,
   (cooldown_max_over_exhausted rlW).2.2.2.1 rfl,
   (cooldown_max_over_exhausted rlW).2.2.2.2 (Or.inl rfl)⟩

/-- A fixed request used in the concrete executor runs. -/
def reqEx : Request := ⟨"GET", "https://api.registry.example/parts"⟩

/-- A server that answers 404 Not Found on every attempt. -/
def srv404 : Nat → Response := fun _ => ⟨404, "Not Found", HeaderMap.empty⟩

/-- A server that answers 500 twice, then 200. -/
def srv500 : Nat → Response := fun i =>
  if i < 2 then ⟨500, "Internal Server Error", HeaderMap.empty⟩
  else ⟨200, "OK", HeaderMap.empty⟩

/-- A server that answers 503 on every attempt. -/
def srv503 : Nat → Response := fun _ =>
  ⟨503, "Service Unavailable", HeaderMap.empty⟩

/-- Headers carrying only `retry-after-short: 5`. -/
def raHeaders : HeaderMap :=
  ⟨fun _ _ => none,
   fun w => match w with | .short => some 5 | _ => none⟩

/-- A server that answers 429 with `retry-after-short: 5`, then 200. -/
def srv429 : Nat → Response := fun i =>
  if i = 0 then ⟨429, "Too Many Requests", raHeaders⟩
  else ⟨200, "OK", HeaderMap.empty⟩

/-- C2, code bug: a terminal 404 response makes `_call` break out of the
attempt loop on the first attempt (a single sleep is recorded, so no
retry occurs), but the raised error is the generic `HTTPError`, not
`ClientError`: the `match` arm `case status.is_client_error:` is a value
pattern comparing the status code with a boolean, which never matches.
The error still carries status, reason, method and URL. -/
theorem call_404_raises_generic_http_error :
    call reqEx srv404 3 ⟨0, none⟩ =
      ([0], ⟨0, none⟩,
        .statusError .httpError 404 "Not Found" "GET"
          "https://api.registry.example/parts")
    ∧ isClientErrorStatus 404 = true
    ∧ dispatch 404 ≠ .clientError := by
  refine ⟨rfl, rfl, ?_⟩
  decide

/-- C5: a 5xx attempt replaces the stored cooldown by
`backoff = min((cooldown or 1) * 2, 60)` and continues to the next
attempt, consuming one unit of the retry budget; `backoff` never exceeds
60, is at least 1 from any non-negative cooldown, maps 0 to 2, doubles
any positive cooldown below the cap, and sticks at 60 once reached.  On
the response sequence [500, 500, 200] with a budget of 3 the call
succeeds on the third attempt, sleeping 0, then 2 (≥ 1), then 4 (≥ 2). -/
theorem call_5xx_doubles_cooldown :
    (∀ (req : Request) (srv : Nat → Response) (attempt : Nat)
        (st : ConnState) (sleeps : List Int) (n : Nat),
        isServerErrorStatus (srv attempt).status = true →
        callAux req srv attempt st sleeps (n + 1) =
          callAux req srv (attempt + 1) ⟨backoff st.cooldown, st.ratelimit⟩
            (sleeps ++ [st.cooldown]) n)
    ∧ (∀ c : Int,
        backoff c ≤ 60
        ∧ (0 ≤ c → 1 ≤ backoff c)
        ∧ (c = 0 → backoff c = 2)
        ∧ (1 ≤ c → c * 2 ≤ 60 → backoff c = c * 2)
        ∧ (60 ≤ c → backoff c = 60))
    ∧ call reqEx srv500 3 ⟨0, none⟩ = ([0, 2, 4], ⟨4, none⟩, .success 200)
    ∧ (1 : Int) ≤ 2 ∧ (2 : Int) ≤ 4 := by
  refine ⟨?_, ?_, rfl, by decide, by decide⟩
  · intro req srv attempt st sleeps n h
    simp [callAux, h]
  · intro c
    unfold backoff
    split_ifs with hc <;> omega

/-- Witness for C5: the step equation at a concrete 5xx attempt, and the
backoff facts at the concrete cooldowns 0, 7 and 80. -/
theorem call_5xx_doubles_cooldown_witness :
    callAux reqEx srv500 0 ⟨0, none⟩ [] 3 =
      callAux reqEx srv500 1 ⟨backoff 0, none⟩ [0] 2
    ∧ backoff 0 = 2 ∧ (1 : Int) ≤ backoff 7 ∧ backoff 7 = 14
    ∧ backoff 80 = 60 :=
  ⟨call_5xx_doubles_cooldown.1 reqEx srv500 0 ⟨0, none⟩ [] 2 (by decide),
   (call_5xx_doubles_cooldown.2.1 0).2.2.1 rfl,
   (call_5xx_doubles_cooldown.2.1 7).2.1 (by decide),
   (call_5xx_doubles_cooldown.2.1 7).2.2.2.1 (by decide) (by decide),
   (call_5xx_doubles_cooldown.2.1 80).2.2.2.2 (by decide)⟩

/-- C6: a 429 attempt replaces the stored cooldown by the maximum of the
three window-specific retry-after header values, each defaulting to 1
when absent, and continues to the next attempt; the new cooldown is an
upper bound of the three defaulted values and equal to one of them.  On
the sequence [429 with retry-after-short 5, 200] with a budget of 3 the
call sleeps 5 (≥ 5) before the second attempt and succeeds. -/
theorem call_429_sets_retry_after_cooldown :
    (∀ (req : Request) (srv : Nat → Response) (attempt : Nat)
        (st : ConnState) (sleeps : List Int) (n : Nat),
        (srv attempt).status = 429 →
        callAux req srv attempt st sleeps (n + 1) =
          callAux req srv (attempt + 1)
            ⟨retryAfterCooldown (srv attempt).headers, st.ratelimit⟩
            (sleeps ++ [st.cooldown]) n)
    ∧ (∀ h : HeaderMap,
        (∀ w : Window, ((h.retryAfter w).getD 1) ≤ retryAfterCooldown h)
        ∧ (∃ w : Window, retryAfterCooldown h = (h.retryAfter w).getD 1))
    ∧ call reqEx srv429 3 ⟨0, none⟩ = ([0, 5], ⟨5, none⟩, .success 200)
    ∧ (5 : Int) ≤ 5 := by
  refine ⟨?_, ?_, rfl, by decide⟩
  · intro req srv attempt st sleeps n h
    simp [callAux, h, isServerErrorStatus]
  · intro h
    constructor
    · intro w
      cases w <;> simp [retryAfterCooldown]
    · unfold retryAfterCooldown
      rcases max_choice (max ((h.retryAfter .short).getD 1)
          ((h.retryAfter .medium).getD 1)) ((h.retryAfter .large).getD 1)
        with h1 | h1 <;> rw [h1]
      · rcases max_choice ((h.retryAfter .short).getD 1)
            ((h.retryAfter .medium).getD 1) with h2 | h2 <;> rw [h2]
        · exact ⟨.short, rfl⟩
        · exact ⟨.medium, rfl⟩
      · exact ⟨.large, rfl⟩

/-- Witness for C6: the step equation at the concrete 429 attempt, and
the bound/attainment facts on the concrete `raHeaders`. -/
theorem call_429_sets_retry_after_cooldown_witness :
    callAux reqEx srv429 0 ⟨0, none⟩ [] 3 =
      callAux reqEx srv429 1 ⟨retryAfterCooldown raHeaders, none⟩ [0] 2
    ∧ (5 : Int) ≤ retryAfterCooldown raHeaders
    ∧ (∃ w : Window, retryAfterCooldown raHeaders = ((raHeaders.retryAfter w).getD 1)) :=
  ⟨call_429_sets_retry_after_cooldown.1 reqEx srv429 0 ⟨0, none⟩ [] 2 (by decide),
   (call_429_sets_retry_after_cooldown.2.1 raHeaders).1 .short,
   (call_429_sets_retry_after_cooldown.2.1 raHeaders).2⟩

/-- Whether an outcome is a raised `ServerError`. -/
def CallResult.raisedServerError : CallResult → Bool
  | .statusError .serverError _ _ _ _ => true
  | _ => false

/-- A status is retryable when the attempt loop continues over it:
5xx or 429. -/
def retryable (s : Nat) : Prop :=
  isServerErrorStatus s = true ∨ s = 429

theorem callAux_retryable_exhausts (req : Request) (srv : Nat → Response) :
    ∀ (n attempt : Nat) (st : ConnState) (sleeps : List Int),
      (∀ i, i < n → retryable (srv (attempt + i)).status) →
      (callAux req srv attempt st sleeps n).2.2 = .retryExhausted := by
  intro n
  induction n with
  | zero => intro attempt st sleeps _; rfl
  | succ n ih =>
    intro attempt st sleeps h
    have h0 := h 0 (Nat.succ_pos n)
    rw [Nat.add_zero] at h0
    have hrest : ∀ i, i < n → retryable (srv (attempt + 1 + i)).status := by
      intro i hi
      have := h (i + 1) (by omega)
      rwa [show attempt + (i + 1) = attempt + 1 + i by omega] at this
    rcases h0 with h0 | h0
    · simp [callAux, h0]
      exact ih (attempt + 1) _ _ hrest
    · simp [callAux, h0, isServerErrorStatus]
      exact ih (attempt + 1) _ _ hrest

/-- C7: when every attempt in a positive retry budget answers 5xx or
429, the attempt loop runs out of its range and the `for`/`else` clause
raises `RetryExhaustedError` — in particular never `ServerError`. -/
theorem call_all_retryable_exhausts (req : Request) (srv : Nat → Response)
    (n : Nat) (st : ConnState) (_hn : 1 ≤ n)
    (h : ∀ i, i < n → retryable (srv i).status) :
    (call req srv n st).2.2 = .retryExhausted
    ∧ ((call req srv n st).2.2).raisedServerError = false := by
  have he : (call req srv n st).2.2 = .retryExhausted := by
    apply callAux_retryable_exhausts
    intro i hi
    rw [Nat.zero_add]
    exact h i hi
  exact ⟨he, by rw [he]; rfl⟩

/-- Witness for C7: with a budget of 2 and both attempts answering 503,
the call raises `RetryExhaustedError`, never `ServerError`. -/
theorem call_all_retryable_exhausts_witness :
    (call reqEx srv503 2 ⟨0, none⟩).2.2 = .retryExhausted
    ∧ ((call reqEx srv503 2 ⟨0, none⟩).2.2).raisedServerError = false :=
  call_all_retryable_exhausts reqEx srv503 2 ⟨0, none⟩ (by decide)
    (fun i _ => Or.inl rfl)

/-- The `match` dispatch of `_call` can never select the server-error
arm: the value pattern `case status.is_server_error:` compares the
status code with the integer value of a boolean. -/
theorem dispatch_ne_serverError (s : Nat) : dispatch s ≠ .serverError := by
  intro h
  unfold dispatch at h
  have hc2 : (isClientErrorStatus s).toNat ≤ 1 := by
    cases isClientErrorStatus s <;> simp [Bool.toNat]
  have hs2 : (isServerErrorStatus s).toNat ≤ 1 := by
    cases isServerErrorStatus s <;> simp [Bool.toNat]
  split_ifs at h with h1 h2 h3
  have hs1 : s ≤ 1 := by omega
  rcases Nat.le_one_iff_eq_zero_or_eq_one.mp hs1 with rfl | rfl
  · exact h2 (by decide)
  · exact absurd h3 (by decide)

theorem postLoop_never_server_error (req : Request) (resp : Response)
    (st : ConnState) (sleeps : List Int) :
    ((postLoop req resp st sleeps).2.2).raisedServerError = false := by
  cases hall : allRateLimitHeaders resp.headers with
  | false =>
    cases hsucc : isSuccessStatus resp.status with
    | true => simp [postLoop, hall, hsucc, CallResult.raisedServerError]
    | false =>
      cases hk : dispatch resp.status with
      | serverError => exact absurd hk (dispatch_ne_serverError _)
      | rateLimitError =>
        simp [postLoop, hall, hsucc, hk, CallResult.raisedServerError]
      | clientError =>
        simp [postLoop, hall, hsucc, hk, CallResult.raisedServerError]
      | httpError =>
        simp [postLoop, hall, hsucc, hk, CallResult.raisedServerError]
  | true =>
    cases hr : ratelimit resp.headers with
    | error e => simp [postLoop, hall, hr, CallResult.raisedServerError]
    | ok rl =>
      cases hsucc : isSuccessStatus resp.status with
      | true => simp [postLoop, hall, hr, hsucc, CallResult.raisedServerError]
      | false =>
        cases hk : dispatch resp.status with
        | serverError => exact absurd hk (dispatch_ne_serverError _)
        | rateLimitError =>
          simp [postLoop, hall, hr, hsucc, hk, CallResult.raisedServerError]
        | clientError =>
          simp [postLoop, hall, hr, hsucc, hk, CallResult.raisedServerError]
        | httpError =>
          simp [postLoop, hall, hr, hsucc, hk, CallResult.raisedServerError]

theorem callAux_never_server_error (req : Request) (srv : Nat → Response) :
    ∀ (n attempt : Nat) (st : ConnState) (sleeps : List Int),
      ((callAux req srv attempt st sleeps n).2.2).raisedServerError = false := by
  intro n
  induction n with
  | zero => intro attempt st sleeps; rfl
  | succ n ih =>
    intro attempt st sleeps
    by_cases h5 : isServerErrorStatus (srv attempt).status = true
    · simp [callAux, h5]
      exact ih (attempt + 1) _ _
    · rw [Bool.not_eq_true] at h5
      by_cases h9 : (srv attempt).status = 429
      · simp [callAux, h5, h9]
        exact ih (attempt + 1) _ _
      · simp [callAux, h5, h9]
        exact postLoop_never_server_error req (srv attempt) st _

/-- C8, corrected (counterexample): with a retry budget of 0 and a
server that would answer 500, the attempt loop body never runs (no sleep
is recorded, so no request is sent) and the executor raises
`RetryExhaustedError`, not `ServerError`. -/
theorem call_zero_retries_counterexample :
    call reqEx srv500 0 ⟨0, none⟩ = ([], ⟨0, none⟩, .retryExhausted)
    ∧ isServerErrorStatus (srv500 0).status = true
    ∧ CallResult.retryExhausted.raisedServerError = false :=
  ⟨rfl, rfl, rfl⟩

/-- C8, amended: with a retry budget of 0 the executor performs no
attempt and raises `RetryExhaustedError` regardless of what the server
would answer; `ServerError` is unreachable for every retry budget: every
5xx response consumes an attempt and continues the loop, and the error
dispatch never selects the server-error arm (its value pattern compares
the status code with a boolean). -/
theorem call_zero_retries_no_server_error :
    (∀ (req : Request) (srv : Nat → Response) (st : ConnState),
        call req srv 0 st = ([], st, .retryExhausted))
    ∧ (∀ (req : Request) (srv : Nat → Response) (n : Nat) (st : ConnState),
        ((call req srv n st).2.2).raisedServerError = false)
    ∧ (∀ (s : Nat) (reason method url : String),
        (CallResult.statusError (dispatch s) s reason method url).raisedServerError
          = false) := by
  refine ⟨fun req srv st => rfl, ?_, ?_⟩
  · intro req srv n st
    exact callAux_never_server_error req srv n 0 st []
  · intro s reason method url
    cases hk : dispatch s with
    | serverError => exact absurd hk (dispatch_ne_serverError s)
    | rateLimitError => rfl
    | clientError => rfl
    | httpError => rfl

/-- A complete set of the nine rate-limit headers, with the short
window exhausted. -/
def fullHeaders : HeaderMap :=
  ⟨fun m w =>
    match m, w with
    | .remaining, .short => some 0
    | .remaining, .medium => some 3
    | .remaining, .large => some 4
    | .reset, .short => some 9
    | .reset, .medium => some 8
    | .reset, .large => some 7
    | .limit, .short => some 5
    | .limit, .medium => some 60
    | .limit, .large => some 200,
   fun _ => none⟩

/-- A server that answers 404 with a complete rate-limit header set. -/
def srv404Full : Nat → Response := fun _ => ⟨404, "Not Found", fullHeaders⟩

/-- C10: the state update of `_call` (lines 273–275) runs before the
status check (line 277): whenever the attempt loop breaks on a response
(neither 5xx nor 429) whose header set is complete, the stored
rate-limit snapshot and cooldown are overwritten from that response even
when a status error is then raised for it — the call is not atomic with
respect to the connection state. -/
theorem status_error_still_updates_ratelimit_state :
    (∀ (req : Request) (srv : Nat → Response) (attempt : Nat)
        (st : ConnState) (sleeps : List Int) (n : Nat),
        isServerErrorStatus (srv attempt).status = false →
        (srv attempt).status ≠ 429 →
        callAux req srv attempt st sleeps (n + 1) =
          postLoop req (srv attempt) st (sleeps ++ [st.cooldown]))
    ∧ (∀ (req : Request) (resp : Response) (st : ConnState)
        (sleeps : List Int) (rl : RateLimit),
        allRateLimitHeaders resp.headers = true →
        ratelimit resp.headers = .ok rl →
        isSuccessStatus resp.status = false →
        postLoop req resp st sleeps =
          (sleeps, ⟨cooldown rl, some rl⟩,
            .statusError (dispatch resp.status) resp.status resp.reason
              req.method req.url)) := by
  constructor
  · intro req srv attempt st sleeps n h5 h9
    simp [callAux, h5, h9]
  · intro req resp st sleeps rl hall hrl hsucc
    simp [postLoop, hall, hrl, hsucc]

/-- Witness for C10: a 404 response carrying a complete rate-limit
header set (short window exhausted, reset 9) leaves the connection state
overwritten — cooldown 9, snapshot stored — even though the call raises
a status error. -/
theorem status_error_still_updates_ratelimit_state_witness :
    call reqEx srv404Full 3 ⟨0, none⟩ =
      ([0], ⟨9, some ⟨(0, 3, 4), (9, 8, 7), (5, 60, 200)⟩⟩,
        .statusError .httpError 404 "Not Found" "GET"
          "https://api.registry.example/parts") := by
  have h1 := status_error_still_updates_ratelimit_state.1 reqEx srv404Full 0
    ⟨0, none⟩ [] 2 (by decide) (by decide)
  have h2 := status_error_still_updates_ratelimit_state.2 reqEx (srv404Full 0)
    ⟨0, none⟩ [0] ⟨(0, 3, 4), (9, 8, 7), (5, 60, 200)⟩ rfl rfl rfl
  exact h1.trans h2

/-! ## Pagination fixtures and theorems -/

/-- A collection with a single item on page 1. -/
def pagesOne : Nat → Page Nat Nat := fun p =>
  if p = 1 then ⟨[7], 1, some 42⟩ else ⟨[], 0, some 99⟩

/-- A collection with pages [1, 2] and [3]; the final, empty page 3
carries no metadata while page 2 does. -/
def pagesTwo : Nat → Page Nat Nat := fun p =>
  if p = 1 then ⟨[1, 2], 3, some 4⟩
  else if p = 2 then ⟨[3], 3, some 5⟩
  else ⟨[], 3, none⟩

theorem paginateAux_ok {α μ : Type} (pages : Nat → Page α μ)
    (limit : Option Nat) (progress : Bool) :
    ∀ (fuel page : Nat) (acc : List α) (evs : List (Nat × Nat))
      (items : List α) (md : Option μ) (evs2 : List (Nat × Nat)),
      paginateAux pages limit progress page acc evs fuel =
        some (.ok ((items, md), evs2)) →
      ∃ k, items = finalize limit (acc ++ joinRange pages page (k + 1))
        ∧ md = (pages (page + k)).metadata := by
  intro fuel
  induction fuel with
  | zero =>
    intro page acc evs items md evs2 h
    exact absurd h (by simp [paginateAux])
  | succ f ih =>
    intro page acc evs items md evs2 h
    simp only [paginateAux] at h
    by_cases hemp : (pages page).data.isEmpty
    · rw [if_pos hemp] at h
      simp only [Option.some.injEq, Except.ok.injEq, Prod.mk.injEq] at h
      obtain ⟨⟨hitems, hmd⟩, -⟩ := h
      have hdata : (pages page).data = [] := by
        rwa [List.isEmpty_iff] at hemp
      refine ⟨0, ?_, ?_⟩
      · rw [joinRange, joinRange, hdata]
        simpa using hitems.symm
      · rw [Nat.add_zero]
        exact hmd.symm
    · rw [if_neg hemp] at h
      cases hps : progressStep progress limit (pages page).total
          (acc ++ (pages page).data).length with
      | error e =>
        rw [hps] at h
        simp at h
      | ok newEvs =>
        rw [hps] at h
        dsimp only at h
        by_cases hlim : limitReached limit (acc ++ (pages page).data).length
        · rw [if_pos hlim] at h
          simp only [Option.some.injEq, Except.ok.injEq, Prod.mk.injEq] at h
          obtain ⟨⟨hitems, hmd⟩, -⟩ := h
          refine ⟨0, ?_, ?_⟩
          · rw [joinRange, joinRange]
            simpa using hitems.symm
          · rw [Nat.add_zero]
            exact hmd.symm
        · rw [if_neg hlim] at h
          obtain ⟨k, h1, h2⟩ := ih (page + 1) (acc ++ (pages page).data)
            (evs ++ newEvs) items md evs2 h
          refine ⟨k + 1, ?_, ?_⟩
          · rw [h1, List.append_assoc]
            conv_rhs => rw [joinRange]
          · rw [h2, show page + 1 + k = page + (k + 1) from by omega]

/-- C1, amended: for every paginated run of collect that terminates
without an exception, the returned item list is the concatenation, in
server-returned page order, of the data of the fetched pages, truncated
to the first `limit` items whenever a limit was given (including limit
0, where the result is empty) and kept whole when no limit was given;
the returned metadata is the metadata object of the last fetched page
(including absent, if the last page had none), never that of an earlier
page. -/
theorem paginated_collect_items_metadata {α μ : Type}
    (pages : Nat → Page α μ) (limit : Option Nat) (progress : Bool)
    (fuel : Nat) (items : List α) (md : Option μ) (evs : List (Nat × Nat))
    (h : callPaginated pages limit progress fuel =
      some (.ok ((items, md), evs))) :
    ∃ k, items = finalize limit (joinRange pages 1 (k + 1))
      ∧ md = (pages (1 + k)).metadata
      ∧ (limit = none → items = joinRange pages 1 (k + 1))
      ∧ (∀ l, limit = some l →
          items = (joinRange pages 1 (k + 1)).take l) := by
  obtain ⟨k, h1, h2⟩ :=
    paginateAux_ok pages limit progress fuel 1 [] [] items md evs h
  rw [List.nil_append] at h1
  refine ⟨k, h1, h2, ?_, ?_⟩
  · intro hl
    rw [hl, finalize] at h1
    exact h1
  · intro l hl
    rw [hl, finalize] at h1
    exact h1

/-- Witness for C1 (amended): a run over pages [1, 2], [3] and a final
empty page with no limit returns all items in page order and the
metadata of the last fetched page — `none`, since the final empty page
carried no metadata, even though page 2 carried some. -/
theorem paginated_collect_items_metadata_witness :
    ∃ k, [1, 2, 3] = finalize none (joinRange pagesTwo 1 (k + 1))
      ∧ (none : Option Nat) = (pagesTwo (1 + k)).metadata
      ∧ ((none : Option Nat) = none → [1, 2, 3] = joinRange pagesTwo 1 (k + 1))
      ∧ (∀ l, (none : Option Nat) = some l →
          [1, 2, 3] = (joinRange pagesTwo 1 (k + 1)).take l) :=
  paginated_collect_items_metadata pagesTwo none false 10 [1, 2, 3] none []
    (by rfl)

/-- C1, corrected (counterexample): with limit 0 — a limit that is not
positive — and a nonempty first page, the driver returns the empty list,
not all accumulated items: item 7 of page 1 was fetched and accumulated,
yet `results[:0]` discards it. -/
theorem paginated_collect_limit_zero_counterexample :
    callPaginated pagesOne (some 0) false 5 = some (.ok (([], some 42), []))
    ∧ (pagesOne 1).data = [7] :=
  ⟨rfl, rfl⟩

/-- C9, code bug: with a progress callback supplied and no limit, the
driver evaluates the minimum of (limit or int of inf) and response.total; `limit`
being `None`, Python evaluates int of the string inf, which raises ValueError
on the first nonempty page, before the callback ever runs.  With a
limit set the callback does receive `(len(results), min(limit, total))`
as the claim states. -/
theorem progress_without_limit_value_error :
    callPaginated pagesOne none true 5 = some (.error .valueError)
    ∧ callPaginated pagesOne (some 10) true 5 =
        some (.ok (([7], some 99), [(1, 1)])) :=
  ⟨rfl, rfl⟩

end IgemRegistry
